import Mathlib

/-!
# Verification development for `src/addon.cpp`

A shallow embedding of the N-API entry point `FindFeatures` (argument checks,
per-object loop and loop body) and of the per-object loop body of
`FindTemplates`.

* C++ `double` and `float` values are embedded as exact rationals (`ℚ`);
  rounding, infinities and NaN are outside the embedding.
* The OpenCV routines the addon calls (`cv::imread`, `SURF::detectAndCompute`,
  `DescriptorMatcher::knnMatch`, `cv::findHomography`,
  `cv::perspectiveTransform`, `cv::matchTemplate`) are parameters, collected in
  the structure `OpenCV`.  A routine that can raise `cv::Exception` returns
  `Except String _`.
* An unchecked `std::vector::operator[]` outside the vector is undefined
  behaviour; the embedding returns `none` there.
* Every loop body returns, next to the object it builds, the list of OpenCV
  routines it called, in call order.
-/

set_option autoImplicit false

namespace Addon

/-! ## Data model -/

/-- The value `cv::Point2f`. -/
structure Point2f where
  x : ℚ
  y : ℚ
  deriving DecidableEq

/-- The value `cv::KeyPoint`; only the location `pt` is read by the addon. -/
structure KeyPoint where
  pt : Point2f
  deriving DecidableEq

/-- The value `cv::DMatch`. -/
structure DMatch where
  queryIdx : Int
  trainIdx : Int
  distance : ℚ
  deriving DecidableEq

/-- The value `cv::Mat`, seen through `rows`, `cols` and element access. -/
structure Mat where
  rows : Nat
  cols : Nat
  elem : Nat → Nat → ℚ

/-- The test `cv::Mat::empty()`. -/
def Mat.empty (m : Mat) : Bool := m.rows == 0 || m.cols == 0

/-- JavaScript values as the addon inspects them through N-API: the tests
`IsString`, `IsArray` and `IsNumber` are matches on the constructor. -/
inductive JSValue where
  | string (s : String)
  | number (x : ℚ)
  | array (xs : List JSValue)
  | other

/-- The assignment `arr[i] = v` on a `Napi::Array`: a slot past the end grows the
array, and the slots in between stay holes (`none`). -/
def jsSet {α : Type} (arr : List (Option α)) (i : Nat) (v : α) : List (Option α) :=
  if i < arr.length then arr.set i (some v)
  else arr ++ List.replicate (i - arr.length) none ++ [some v]

/-- The OpenCV routines a loop body can call. -/
inductive Call where
  | imread
  | detectAndCompute
  | knnMatch
  | findHomography
  | perspectiveTransform
  | matchTemplate
  | minMaxLoc
  deriving DecidableEq

/-- The OpenCV and standard-library routines the addon calls, as parameters. -/
structure OpenCV where
  /-- The call `cv::imread(path, IMREAD_GRAYSCALE)`; an unreadable file gives an empty `Mat`. -/
  imread : String → Mat
  /-- The call `fs::path(p).filename().string()`. -/
  filename : String → String
  /-- The call `SURF::create(minHessian)->detectAndCompute(img, noArray(), kps, descs)`. -/
  detectAndCompute : ℚ → Mat → Except String (List KeyPoint × Mat)
  /-- The call `matcher->knnMatch(descriptorsObject, descriptorsScene, knnMatches, k)`. -/
  knnMatch : Mat → Mat → Nat → Except String (List (List DMatch))
  /-- The call `cv::findHomography(obj, scene, cv::RANSAC)`. -/
  findHomography : List Point2f → List Point2f → Except String Mat
  /-- The call `cv::perspectiveTransform(objCorners, sceneCorners, H)`. -/
  perspectiveTransform : List Point2f → Mat → Except String (List Point2f)
  /-- The call `cv::matchTemplate(imgScene, imgObject, result_map, method)`. -/
  matchTemplate : Mat → Mat → Int → Except String Mat
  /-- The enumerator `cv::TM_SQDIFF`. -/
  TM_SQDIFF : Int
  /-- The enumerator `cv::TM_SQDIFF_NORMED`. -/
  TM_SQDIFF_NORMED : Int

/-- The object `objectResult` of `FindFeatures`: a field is `some` once `Set` wrote it. -/
structure ObjectResult where
  template : Option String
  corners : Option (List (Option Point2f))
  confidence : Option ℚ
  matchesCount : Option Int
  error : Option String
  deriving DecidableEq

/-- The fresh object `Napi::Object::New(env)`. -/
def ObjectResult.new : ObjectResult :=
  { template := none, corners := none, confidence := none, matchesCount := none, error := none }

/-- The cast `(int)` of a `size_t`: reduction modulo `2^32`, read as a signed 32-bit value. -/
def toInt32 (n : Nat) : Int :=
  if n % 2 ^ 32 < 2 ^ 31 then ((n % 2 ^ 32 : Nat) : Int) else ((n % 2 ^ 32 : Nat) : Int) - 2 ^ 32

/-- The unchecked read `v[i]` of a `std::vector` with an `int` index: `none` is
an index outside the vector. -/
def vecAt {α : Type} (v : List α) (i : Int) : Option α :=
  if 0 ≤ i then v[i.toNat]? else none

/-! ## `FindFeatures` -/

/-- The ratio-test loop, lines 85-90: `good` is `goodMatches` so far.  The reads
`knnMatches[i][0]` and `knnMatches[i][1]` are unchecked. -/
def ratioFilter (ratioThreshold : ℚ) : List (List DMatch) → List DMatch → Option (List DMatch)
  | [], good => some good
  | row :: rest, good =>
    match row[0]?, row[1]? with
    | some m0, some m1 =>
      if m0.distance < ratioThreshold * m1.distance then
        ratioFilter ratioThreshold rest (good ++ [m0])
      else
        ratioFilter ratioThreshold rest good
    | _, _ => none

/-- The localisation loop, lines 100-107: `obj` and `scene` are the vectors so far. -/
def localize (keypointsObject keypointsScene : List KeyPoint) :
    List DMatch → List Point2f → List Point2f → Option (List Point2f × List Point2f)
  | [], obj, scene => some (obj, scene)
  | m :: rest, obj, scene =>
    match vecAt keypointsObject m.queryIdx, vecAt keypointsScene m.trainIdx with
    | some ko, some ks => localize keypointsObject keypointsScene rest (obj ++ [ko.pt]) (scene ++ [ks.pt])
    | _, _ => none

/-- The confidence of lines 123-124.  The sum of the two sizes is a `size_t`
(modulo `2^64`); a zero divisor makes the quotient infinite or NaN, and
`std::min(1.0, _)` of either is `1.0`. -/
def confidenceOf (g ko ks : Nat) : ℚ :=
  if (ko + ks) % 2 ^ 64 = 0 then 1
  else min 1 ((g : ℚ) / (((ko + ks) % 2 ^ 64 : Nat) : ℚ) * 2)

/-- The corner loop of lines 127-133: reads `sceneCorners[0..3]` and writes them
into a fresh `Napi::Array` of length 4. -/
def cornersLoop (sceneCorners : List Point2f) :
    List Nat → List (Option Point2f) → Option (List (Option Point2f))
  | [], cornersArray => some cornersArray
  | i :: rest, cornersArray =>
    match sceneCorners[i]? with
    | some p => cornersLoop sceneCorners rest (jsSet cornersArray i p)
    | none => none

/-- The body of the per-object loop of `FindFeatures`, lines 51-144, for a
string entry `objectPath`.  The result is the object stored at `matches[t]` and
the OpenCV calls made; `none` is undefined behaviour. -/
def featuresBody (cv : OpenCV) (imgScene : Mat) (minHessian ratioThreshold : ℚ)
    (objectPath : String) : Option (ObjectResult × List Call) :=
  let filename := cv.filename objectPath
  let objectResult := ObjectResult.new
  let imgObject := cv.imread objectPath
  if imgObject.empty then
    some ({ objectResult with error := some "Failed to load object image" }, [.imread])
  else
    match cv.detectAndCompute minHessian imgObject with
    | .error e => some ({ objectResult with error := some e }, [.imread, .detectAndCompute])
    | .ok (keypointsObject, descriptorsObject) =>
    match cv.detectAndCompute minHessian imgScene with
    | .error e =>
      some ({ objectResult with error := some e }, [.imread, .detectAndCompute, .detectAndCompute])
    | .ok (keypointsScene, descriptorsScene) =>
    if keypointsObject.isEmpty || keypointsScene.isEmpty then
      some ({ objectResult with matchesCount := some 0 },
        [.imread, .detectAndCompute, .detectAndCompute])
    else
      match cv.knnMatch descriptorsObject descriptorsScene 2 with
      | .error e =>
        some ({ objectResult with error := some e },
          [.imread, .detectAndCompute, .detectAndCompute, .knnMatch])
      | .ok knnMatches =>
      match ratioFilter ratioThreshold knnMatches [] with
      | none => none
      | some goodMatches =>
      if goodMatches.length < 10 then
        some ({ objectResult with matchesCount := some (toInt32 goodMatches.length) },
          [.imread, .detectAndCompute, .detectAndCompute, .knnMatch])
      else
        match localize keypointsObject keypointsScene goodMatches [] [] with
        | none => none
        | some (obj, scene) =>
        match cv.findHomography obj scene with
        | .error e =>
          some ({ objectResult with error := some e },
            [.imread, .detectAndCompute, .detectAndCompute, .knnMatch, .findHomography])
        | .ok H =>
        let objCorners : List Point2f :=
          [⟨0, 0⟩, ⟨(imgObject.cols : ℚ), 0⟩, ⟨(imgObject.cols : ℚ), (imgObject.rows : ℚ)⟩,
            ⟨0, (imgObject.rows : ℚ)⟩]
        match cv.perspectiveTransform objCorners H with
        | .error e =>
          some ({ objectResult with error := some e },
            [.imread, .detectAndCompute, .detectAndCompute, .knnMatch, .findHomography,
              .perspectiveTransform])
        | .ok sceneCorners =>
        let confidence := confidenceOf goodMatches.length keypointsObject.length keypointsScene.length
        match cornersLoop sceneCorners [0, 1, 2, 3] (List.replicate 4 none) with
        | none => none
        | some cornersArray =>
          some ({ objectResult with
                  template := some filename
                  corners := some cornersArray
                  confidence := some confidence
                  matchesCount := some (toInt32 goodMatches.length) },
            [.imread, .detectAndCompute, .detectAndCompute, .knnMatch, .findHomography,
              .perspectiveTransform])

/-- The per-object loop of `FindFeatures`, lines 46-145: `t` is the loop index
and `matches` the array so far.  A non-string entry is skipped by `continue`. -/
def featuresLoop (cv : OpenCV) (imgScene : Mat) (minHessian ratioThreshold : ℚ) :
    List JSValue → Nat → List (Option ObjectResult) → Option (List (Option ObjectResult))
  | [], _, matchesArr => some matchesArr
  | val :: rest, t, matchesArr =>
    match val with
    | .string objectPath =>
      match featuresBody cv imgScene minHessian ratioThreshold objectPath with
      | none => none
      | some (objectResult, _) =>
        featuresLoop cv imgScene minHessian ratioThreshold rest (t + 1) (jsSet matchesArr t objectResult)
    | _ => featuresLoop cv imgScene minHessian ratioThreshold rest (t + 1) matchesArr

/-- What an entry point does: throw a JavaScript exception (and return an empty
object), run into undefined behaviour, or return its result object. -/
inductive Completion (α : Type) where
  | typeError (msg : String)
  | error (msg : String)
  | undefinedBehaviour
  | returned (a : α)

/-- The fourth argument of `FindFeatures`, line 29:
`info.Length() > 3 ? info[3].As<Napi::Number>().DoubleValue() : 0.75`.
`none` is a fourth argument that is not a number, which N-API refuses. -/
def ratioThresholdArg (info : List JSValue) : Option ℚ :=
  if info.length > 3 then
    match info[3]? with
    | some (JSValue.number x) => some x
    | _ => none
  else some (3 / 4)

/-- The entry point `FindFeatures`, lines 15-149; the result is the array stored
under `matches`. -/
def FindFeatures (cv : OpenCV) (info : List JSValue) : Completion (List (Option ObjectResult)) :=
  match info with
  | .string sceneImagePath :: .array objectPaths :: .number minHessian :: _ =>
    match ratioThresholdArg info with
    | none => .typeError "A number was expected"
    | some ratioThreshold =>
      let imgScene := cv.imread sceneImagePath
      if imgScene.empty then .error "Failed to load scene image"
      else
        match featuresLoop cv imgScene minHessian ratioThreshold objectPaths 0 [] with
        | none => .undefinedBehaviour
        | some matchesArr => .returned matchesArr
  | _ =>
    .typeError "Arguments: (string)sceneImagePath, (array)objectPaths, (number)minHessian"

/-! ## `FindTemplates` -/

/-- The object `match` of `FindTemplates`, lines 233-238. -/
structure MatchBox where
  x : Nat
  y : Nat
  width : Nat
  height : Nat
  confidence : ℚ
  deriving DecidableEq

/-- The object `singleTemplateResult` of `FindTemplates`: a field is `some` once
`Set` wrote it; `matchesArray` is the field written under the key `matches`. -/
structure TemplateResult where
  template : Option String
  error : Option String
  maxConfidence : Option ℚ
  matchesArray : Option (List (Option MatchBox))
  deriving DecidableEq

/-- The fresh object `Napi::Object::New(env)`. -/
def TemplateResult.new : TemplateResult :=
  { template := none, error := none, maxConfidence := none, matchesArray := none }

/-- The entries of a map in row-major order. -/
def Mat.entries (m : Mat) : List ℚ :=
  (List.range m.rows).flatMap fun i => (List.range m.cols).map fun j => m.elem i j

/-- Modelled from the spec: `cv::minMaxLoc` is OpenCV code outside src/; it is
taken here as the pair (global minimum, global maximum) of the entries of the
map, the global score the spec speaks of.  The two locations it also returns are
never read by the addon. -/
def minMaxLoc (m : Mat) : ℚ × ℚ :=
  match m.entries with
  | [] => (0, 0)
  | v :: vs => (vs.foldl min v, vs.foldl max v)

/-- The test of lines 225-230 on one score. -/
def isMatch (cv : OpenCV) (method : Int) (threshold confidence : ℚ) : Bool :=
  if method = cv.TM_SQDIFF ∨ method = cv.TM_SQDIFF_NORMED then decide (confidence ≤ threshold)
  else decide (confidence ≥ threshold)

/-- The inner loop of lines 223-241 over the columns still to visit; the state is
`matchesArray` and `matchIndex`.  A map has fewer entries than `2^31` (an image
read by `cv::imread` has at most `2^30` pixels), so the `int` counter
`matchIndex` is embedded as a natural number. -/
def scanRow (cv : OpenCV) (result_map imgObject : Mat) (method : Int) (threshold : ℚ) (i : Nat) :
    List Nat → List (Option MatchBox) × Nat → List (Option MatchBox) × Nat
  | [], st => st
  | j :: rest, (matchesArray, matchIndex) =>
    let confidence := result_map.elem i j
    if isMatch cv method threshold confidence then
      scanRow cv result_map imgObject method threshold i rest
        (jsSet matchesArray matchIndex
          { x := j, y := i, width := imgObject.cols, height := imgObject.rows,
            confidence := confidence },
          matchIndex + 1)
    else
      scanRow cv result_map imgObject method threshold i rest (matchesArray, matchIndex)

/-- The outer loop of lines 222-242 over the rows still to visit. -/
def scanRows (cv : OpenCV) (result_map imgObject : Mat) (method : Int) (threshold : ℚ) :
    List Nat → List (Option MatchBox) × Nat → List (Option MatchBox) × Nat
  | [], st => st
  | i :: rest, st =>
    scanRows cv result_map imgObject method threshold rest
      (scanRow cv result_map imgObject method threshold i (List.range result_map.cols) st)

/-- The body of the per-object loop of `FindTemplates`, lines 185-248, for a
string entry `objectPath`: the object stored at `templateResults[t]` and the
OpenCV calls made. -/
def templatesBody (cv : OpenCV) (imgScene : Mat) (method : Int) (threshold : ℚ)
    (objectPath : String) : TemplateResult × List Call :=
  let filename := cv.filename objectPath
  let singleTemplateResult := { TemplateResult.new with template := some filename }
  let imgObject := cv.imread objectPath
  if imgObject.empty then
    ({ singleTemplateResult with error := some "Failed to load object image" }, [.imread])
  else if imgScene.cols < imgObject.cols || imgScene.rows < imgObject.rows then
    ({ singleTemplateResult with error := some "Scene image is smaller than template image" },
      [.imread])
  else
    match cv.matchTemplate imgScene imgObject method with
    | .error e => ({ singleTemplateResult with error := some e }, [.imread, .matchTemplate])
    | .ok result_map =>
      let maxVal := (minMaxLoc result_map).2
      let withMax := { singleTemplateResult with maxConfidence := some maxVal }
      let scanned :=
        scanRows cv result_map imgObject method threshold (List.range result_map.rows) ([], 0)
      ({ withMax with matchesArray := some scanned.1 }, [.imread, .matchTemplate, .minMaxLoc])

/-- Modelled from the spec: `cv::matchTemplate` is OpenCV code outside src/; for
the raw sum-of-squared-differences metric the score at offset `(j, i)` is the sum,
over the pixels of the object, of the squared difference between the object pixel
and the scene pixel under it, on a map of `sceneH - objH + 1` rows and
`sceneW - objW + 1` columns. -/
def sqdiffMap (scene obj : Mat) : Mat :=
  { rows := scene.rows - obj.rows + 1
    cols := scene.cols - obj.cols + 1
    elem := fun i j =>
      ((List.range obj.rows).map fun y =>
        ((List.range obj.cols).map fun x => (scene.elem (i + y) (j + x) - obj.elem y x) ^ 2).sum).sum }

/-- The boxes one row of the scan adds, for the columns `js`. -/
def rowBoxes (cv : OpenCV) (result_map imgObject : Mat) (method : Int) (threshold : ℚ) (i : Nat)
    (js : List Nat) : List MatchBox :=
  (js.filter fun j => isMatch cv method threshold (result_map.elem i j)).map fun j =>
    { x := j, y := i, width := imgObject.cols, height := imgObject.rows,
      confidence := result_map.elem i j }

/-! ## Specification-side definitions -/

/-- The offsets `(i, j)` of a map in row-major order: `i` ascending, then `j` ascending. -/
def offsets (rows cols : Nat) : List (Nat × Nat) :=
  (List.range rows).flatMap fun i => (List.range cols).map fun j => (i, j)

/-- The polarity predicate as the spec words it: `score ≤ threshold` for the two
squared-difference metrics, `score ≥ threshold` for every other one. -/
def passes (cv : OpenCV) (method : Int) (threshold score : ℚ) : Prop :=
  if method = cv.TM_SQDIFF ∨ method = cv.TM_SQDIFF_NORMED then score ≤ threshold
  else score ≥ threshold

instance (cv : OpenCV) (method : Int) (threshold score : ℚ) :
    Decidable (passes cv method threshold score) := by
  unfold passes; exact inferInstance

/-- The matches the spec asks for: the passing offsets in row-major order, each
boxed with the object size and its score. -/
def specMatches (cv : OpenCV) (result_map : Mat) (objW objH : Nat) (method : Int)
    (threshold : ℚ) : List MatchBox :=
  ((offsets result_map.rows result_map.cols).filter fun p =>
      decide (passes cv method threshold (result_map.elem p.1 p.2))).map fun p =>
    { x := p.2, y := p.1, width := objW, height := objH, confidence := result_map.elem p.1 p.2 }

/-- The good matches the spec asks for: the best match of every entry that passes
the strict ratio test, in query order. -/
def specGood (ratioThreshold : ℚ) (knn : List (DMatch × DMatch)) : List DMatch :=
  (knn.filter fun p => decide (p.1.distance < ratioThreshold * p.2.distance)).map Prod.fst

/-! ## Sample inputs -/

/-- An image of the given size with every pixel zero. -/
def zeroMat (rows cols : Nat) : Mat := { rows := rows, cols := cols, elem := fun _ _ => 0 }

/-- A sample matcher row: a best match at distance 1, a second best at distance 2. -/
def sampleRow : List DMatch := [⟨0, 0, 1⟩, ⟨0, 0, 2⟩]

/-- A sample OpenCV: `"missing.png"` does not load, `"scene.png"` loads as a 4 x 4
image and every other path as a 2 x 2 image; the detector finds `nObj` keypoints in an image of 2 rows and
`nScene` in any other; the matcher returns `knn`; the homography is found and the
projection maps every corner to itself; template matching is the raw
sum of squared differences. -/
def sampleCV (nObj nScene : Nat) (knn : List (List DMatch)) : OpenCV :=
  { imread := fun p =>
      if p = "missing.png" then zeroMat 0 0 else if p = "scene.png" then zeroMat 4 4 else zeroMat 2 2
    filename := fun p => p
    detectAndCompute := fun _ m =>
      .ok (List.replicate (if m.rows = 2 then nObj else nScene) ⟨⟨0, 0⟩⟩, m)
    knnMatch := fun _ _ _ => .ok knn
    findHomography := fun _ _ => .ok (zeroMat 3 3)
    perspectiveTransform := fun pts _ => .ok pts
    matchTemplate := fun scene obj _ => .ok (sqdiffMap scene obj)
    TM_SQDIFF := 0
    TM_SQDIFF_NORMED := 1 }

/-- Ten sample matcher rows, each passing the ratio test at threshold 0.75. -/
def sampleKnn : List (List DMatch) :=
  [sampleRow, sampleRow, sampleRow, sampleRow, sampleRow, sampleRow, sampleRow, sampleRow,
    sampleRow, sampleRow]

/-- The ten good matches of `sampleKnn`. -/
def sampleGood : List DMatch :=
  [⟨0, 0, 1⟩, ⟨0, 0, 1⟩, ⟨0, 0, 1⟩, ⟨0, 0, 1⟩, ⟨0, 0, 1⟩, ⟨0, 0, 1⟩, ⟨0, 0, 1⟩, ⟨0, 0, 1⟩,
    ⟨0, 0, 1⟩, ⟨0, 0, 1⟩]

/-- The four corners of a 2 x 2 object. -/
def sampleCorners : List Point2f := [⟨0, 0⟩, ⟨2, 0⟩, ⟨2, 2⟩, ⟨0, 2⟩]

/-- The calls of a run of the feature loop body that reaches the end. -/
def fullTrace : List Call :=
  [.imread, .detectAndCompute, .detectAndCompute, .knnMatch, .findHomography,
    .perspectiveTransform]

/-- A 2 x 3 scene whose pixel in column `j` is `j`. -/
def rampScene : Mat := { rows := 2, cols := 3, elem := fun _ j => (j : ℚ) }

/-- The sample OpenCV reading every path as a 10 x 10 image of zero pixels. -/
def zeroCV : OpenCV := { sampleCV 0 0 [] with imread := fun _ => zeroMat 10 10 }

/-- A 1 x 2 scene with the pixels 3 and 7. -/
def patchScene : Mat := { rows := 1, cols := 2, elem := fun _ j => if j = 1 then 7 else 3 }

/-- The sample OpenCV reading every path as a 1 x 1 image with the pixel 7. -/
def patchCV : OpenCV :=
  { sampleCV 0 0 [] with imread := fun _ => { rows := 1, cols := 1, elem := fun _ _ => 7 } }

/-! ## The ratio filter -/

theorem ratioFilter_pairs (r : ℚ) (knn : List (DMatch × DMatch)) (good : List DMatch) :
    ratioFilter r (knn.map fun p => [p.1, p.2]) good = some (good ++ specGood r knn) := by
  induction knn generalizing good with
  | nil => simp [ratioFilter, specGood]
  | cons p rest ih =>
    by_cases h : p.1.distance < r * p.2.distance
    · simp [ratioFilter, specGood, h, ih]
    · simp [ratioFilter, specGood, h, ih]

theorem ratioFilter_short_row (r : ℚ) (row : List DMatch) (rest : List (List DMatch))
    (good : List DMatch) (h : row.length < 2) : ratioFilter r (row :: rest) good = none := by
  match row, h with
  | [], _ => simp [ratioFilter]
  | [m], _ => simp [ratioFilter]

/-- C4: on k=2 matcher results, each a best and a second-best match, the
ratio filter returns exactly the best matches whose distance is strictly below
`ratioThreshold` times the second-best distance, in query order; an entry where
the two sides are equal is rejected; and the threshold is 0.75 when the call has
no fourth argument. -/
theorem C4_ratio_filter (ratioThreshold : ℚ) (knn : List (DMatch × DMatch)) :
    ratioFilter ratioThreshold (knn.map fun p => [p.1, p.2]) [] = some (specGood ratioThreshold knn)
    ∧ (∀ m : DMatch, m ∈ specGood ratioThreshold knn ↔
        ∃ p ∈ knn, p.1.distance < ratioThreshold * p.2.distance ∧ p.1 = m)
    ∧ (∀ best second : DMatch, best.distance = ratioThreshold * second.distance →
        ratioFilter ratioThreshold [[best, second]] [] = some [])
    ∧ (∀ info : List JSValue, info.length ≤ 3 → ratioThresholdArg info = some (3 / 4)) := by
  refine ⟨by simpa using ratioFilter_pairs ratioThreshold knn [], ?_, ?_, ?_⟩
  · intro m
    simp only [specGood, List.mem_map, List.mem_filter, decide_eq_true_eq]
    constructor
    · rintro ⟨p, ⟨hp, hlt⟩, rfl⟩
      exact ⟨p, hp, hlt, rfl⟩
    · rintro ⟨p, hp, hlt, rfl⟩
      exact ⟨p, ⟨hp, hlt⟩, rfl⟩
  · intro best second h
    simp [ratioFilter, h]
  · intro info h
    have : ¬ info.length > 3 := by omega
    simp [ratioThresholdArg, this]

theorem C4_ratio_filter_witness :
    ratioFilter (3 / 4) [[⟨0, 0, 1⟩, ⟨0, 1, 2⟩], [⟨1, 2, 3⟩, ⟨1, 3, 4⟩]] [] = some [⟨0, 0, 1⟩]
    ∧ ratioFilter (3 / 4) [[⟨0, 0, 3⟩, ⟨0, 1, 4⟩]] [] = some []
    ∧ ratioThresholdArg [.string "scene.png", .array [], .number 400] = some (3 / 4) := by
  have h := C4_ratio_filter (3 / 4) [(⟨0, 0, 1⟩, ⟨0, 1, 2⟩), (⟨1, 2, 3⟩, ⟨1, 3, 4⟩)]
  refine ⟨?_, ?_, ?_⟩
  · have h1 := h.1
    norm_num [specGood] at h1
    exact h1
  · exact h.2.2.1 ⟨0, 0, 3⟩ ⟨0, 1, 4⟩ (by norm_num)
  · exact h.2.2.2 _ (by simp)

/-- C5: with one scene keypoint the matcher rows hold a single neighbour, and
the ratio filter reads the missing second neighbour: the run is undefined instead
of giving the outcome with `matchesCount = 0`. -/
theorem C5_single_scene_keypoint_reads_past_row :
    ratioFilter (3 / 4) [[⟨0, 0, 1⟩]] [] = none
    ∧ featuresBody (sampleCV 1 1 [[⟨0, 0, 1⟩]]) (zeroMat 4 4) 400 (3 / 4) "object.png" = none
    ∧ FindFeatures (sampleCV 1 1 [[⟨0, 0, 1⟩]])
        [.string "scene.png", .array [.string "object.png"], .number 400]
      = .undefinedBehaviour := by
  refine ⟨?_, ?_, ?_⟩
  · simp [ratioFilter]
  · simp [featuresBody, sampleCV, zeroMat, Mat.empty, ratioFilter]
  · simp [FindFeatures, featuresLoop, ratioThresholdArg, featuresBody, sampleCV, zeroMat,
      Mat.empty, ratioFilter]

/-! ## The feature outcome -/

theorem confidenceOf_bounds (g ko ks : Nat) :
    0 ≤ confidenceOf g ko ks ∧ confidenceOf g ko ks ≤ 1 := by
  unfold confidenceOf
  split
  · norm_num
  · exact ⟨le_min (by norm_num) (by positivity), min_le_left _ _⟩

theorem confidenceOf_eq (g ko ks : Nat) (hpos : 0 < ko + ks) (hsize : ko + ks < 2 ^ 64) :
    confidenceOf g ko ks = min 1 (2 * (g : ℚ) / ((ko : ℚ) + (ks : ℚ))) := by
  have hmod : (ko + ks) % 2 ^ 64 = ko + ks := Nat.mod_eq_of_lt hsize
  have hne : ¬ (ko + ks = 0) := by omega
  simp only [confidenceOf, hmod, hne, if_false, Nat.cast_add]
  congr 1
  ring

theorem toInt32_of_lt (n : Nat) (h : n < 2 ^ 31) : toInt32 n = (n : Int) := by
  have hmod : n % 2 ^ 32 = n := Nat.mod_eq_of_lt (by omega)
  unfold toInt32
  rw [hmod, if_pos h]

/-- The shape of every outcome of the loop body that carries corners or a
confidence: it comes from the success branch, after ten or more good matches. -/
theorem featuresBody_success_inv (cv : OpenCV) (imgScene : Mat) (minHessian ratioThreshold : ℚ)
    (objectPath : String) (o : ObjectResult) (tr : List Call)
    (h : featuresBody cv imgScene minHessian ratioThreshold objectPath = some (o, tr))
    (hc : o.confidence.isSome = true ∨ o.corners.isSome = true) :
    ∃ kpO dO kpS dS knn good cornersArray,
      cv.detectAndCompute minHessian (cv.imread objectPath) = .ok (kpO, dO)
      ∧ cv.detectAndCompute minHessian imgScene = .ok (kpS, dS)
      ∧ kpO ≠ [] ∧ kpS ≠ []
      ∧ cv.knnMatch dO dS 2 = .ok knn
      ∧ ratioFilter ratioThreshold knn [] = some good
      ∧ 10 ≤ good.length
      ∧ o = { template := some (cv.filename objectPath)
              corners := some cornersArray
              confidence := some (confidenceOf good.length kpO.length kpS.length)
              matchesCount := some (toInt32 good.length)
              error := none } := by
  unfold featuresBody at h
  simp only at h
  split at h
  · simp only [Option.some.injEq, Prod.mk.injEq] at h
    obtain ⟨rfl, -⟩ := h
    simp [ObjectResult.new] at hc
  · split at h
    · simp only [Option.some.injEq, Prod.mk.injEq] at h
      obtain ⟨rfl, -⟩ := h
      simp [ObjectResult.new] at hc
    · rename_i kpO dO hO
      split at h
      · simp only [Option.some.injEq, Prod.mk.injEq] at h
        obtain ⟨rfl, -⟩ := h
        simp [ObjectResult.new] at hc
      · rename_i kpS dS hS
        split at h
        · simp only [Option.some.injEq, Prod.mk.injEq] at h
          obtain ⟨rfl, -⟩ := h
          simp [ObjectResult.new] at hc
        · rename_i hkp
          split at h
          · simp only [Option.some.injEq, Prod.mk.injEq] at h
            obtain ⟨rfl, -⟩ := h
            simp [ObjectResult.new] at hc
          · rename_i knn hknn
            split at h
            · exact absurd h (by simp)
            · rename_i good hgood
              split at h
              · simp only [Option.some.injEq, Prod.mk.injEq] at h
                obtain ⟨rfl, -⟩ := h
                simp [ObjectResult.new] at hc
              · rename_i hlen
                split at h
                · exact absurd h (by simp)
                · split at h
                  · simp only [Option.some.injEq, Prod.mk.injEq] at h
                    obtain ⟨rfl, -⟩ := h
                    simp [ObjectResult.new] at hc
                  · split at h
                    · simp only [Option.some.injEq, Prod.mk.injEq] at h
                      obtain ⟨rfl, -⟩ := h
                      simp [ObjectResult.new] at hc
                    · split at h
                      · exact absurd h (by simp)
                      · rename_i cornersArray hcorners
                        simp only [Option.some.injEq, Prod.mk.injEq] at h
                        obtain ⟨rfl, -⟩ := h
                        simp only [Bool.or_eq_true, List.isEmpty_iff, not_or] at hkp
                        exact ⟨kpO, dO, kpS, dS, knn, good, cornersArray, hO, hS, hkp.1, hkp.2,
                          hknn, hgood, by omega, by simp [ObjectResult.new]⟩

theorem sample_ratioFilter : ratioFilter (3 / 4) sampleKnn [] = some sampleGood := by
  norm_num [ratioFilter, sampleKnn, sampleRow, sampleGood]

theorem sample_localize (n m : Nat) :
    localize (List.replicate (n + 1) ⟨⟨0, 0⟩⟩) (List.replicate (m + 1) ⟨⟨0, 0⟩⟩) sampleGood [] []
      = some (List.replicate 10 ⟨0, 0⟩, List.replicate 10 ⟨0, 0⟩) := by
  simp [localize, sampleGood, vecAt, List.replicate]

theorem sample_cornersLoop :
    cornersLoop sampleCorners [0, 1, 2, 3] (List.replicate 4 none)
      = some (sampleCorners.map some) := by
  simp [cornersLoop, sampleCorners, jsSet, List.replicate]

/-- The success branch of the loop body: what it stores and what it calls. -/
theorem featuresBody_success (cv : OpenCV) (imgScene : Mat) (minHessian ratioThreshold : ℚ)
    (objectPath : String) (kpO kpS : List KeyPoint) (dO dS : Mat) (knn : List (List DMatch))
    (good : List DMatch) (obj scene : List Point2f) (H : Mat) (sceneCorners : List Point2f)
    (cornersArray : List (Option Point2f))
    (hload : (cv.imread objectPath).empty = false)
    (hO : cv.detectAndCompute minHessian (cv.imread objectPath) = .ok (kpO, dO))
    (hS : cv.detectAndCompute minHessian imgScene = .ok (kpS, dS))
    (hkO : kpO ≠ []) (hkS : kpS ≠ [])
    (hknn : cv.knnMatch dO dS 2 = .ok knn)
    (hgood : ratioFilter ratioThreshold knn [] = some good)
    (hten : 10 ≤ good.length)
    (hloc : localize kpO kpS good [] [] = some (obj, scene))
    (hH : cv.findHomography obj scene = .ok H)
    (hP : cv.perspectiveTransform
        [⟨0, 0⟩, ⟨((cv.imread objectPath).cols : ℚ), 0⟩,
          ⟨((cv.imread objectPath).cols : ℚ), ((cv.imread objectPath).rows : ℚ)⟩,
          ⟨0, ((cv.imread objectPath).rows : ℚ)⟩] H = .ok sceneCorners)
    (hC : cornersLoop sceneCorners [0, 1, 2, 3] (List.replicate 4 none) = some cornersArray) :
    featuresBody cv imgScene minHessian ratioThreshold objectPath
      = some ({ template := some (cv.filename objectPath)
                corners := some cornersArray
                confidence := some (confidenceOf good.length kpO.length kpS.length)
                matchesCount := some (toInt32 good.length)
                error := none }, fullTrace) := by
  have hlen : ¬ good.length < 10 := by omega
  have hC4 : cornersLoop sceneCorners [0, 1, 2, 3] [none, none, none, none] = some cornersArray := by
    simpa [List.replicate] using hC
  simp [featuresBody, hload, hO, hS, hkO, hkS, hknn, hgood, hlen, hloc, hH, hP, hC4,
    ObjectResult.new, fullTrace]

theorem sample_success :
    featuresBody (sampleCV 20 20 sampleKnn) (zeroMat 4 4) 400 (3 / 4) "object.png"
      = some ({ template := some "object.png"
                corners := some (sampleCorners.map some)
                confidence := some (confidenceOf 10 20 20)
                matchesCount := some (toInt32 10)
                error := none }, fullTrace) := by
  have h := featuresBody_success (sampleCV 20 20 sampleKnn) (zeroMat 4 4) 400 (3 / 4) "object.png"
    (List.replicate 20 ⟨⟨0, 0⟩⟩) (List.replicate 20 ⟨⟨0, 0⟩⟩) (zeroMat 2 2) (zeroMat 4 4)
    sampleKnn sampleGood (List.replicate 10 ⟨0, 0⟩) (List.replicate 10 ⟨0, 0⟩) (zeroMat 3 3)
    sampleCorners (sampleCorners.map some)
    (by simp [sampleCV, zeroMat, Mat.empty])
    (by simp [sampleCV, zeroMat])
    (by simp [sampleCV, zeroMat])
    (by simp [List.replicate])
    (by simp [List.replicate])
    (by simp [sampleCV])
    sample_ratioFilter
    (by simp [sampleGood])
    (sample_localize 19 19)
    (by simp [sampleCV])
    (by simp [sampleCV, zeroMat, sampleCorners])
    sample_cornersLoop
  simpa [sampleGood, sampleCV] using h

/-- C1: every outcome of the feature loop body that carries a confidence field
has its confidence between 0 and 1. -/
theorem C1_confidence_in_unit_interval (cv : OpenCV) (imgScene : Mat)
    (minHessian ratioThreshold : ℚ) (objectPath : String) (o : ObjectResult) (tr : List Call)
    (c : ℚ)
    (h : featuresBody cv imgScene minHessian ratioThreshold objectPath = some (o, tr))
    (hc : o.confidence = some c) : 0 ≤ c ∧ c ≤ 1 := by
  obtain ⟨kpO, dO, kpS, dS, knn, good, cornersArray, -, -, -, -, -, -, -, ho⟩ :=
    featuresBody_success_inv cv imgScene minHessian ratioThreshold objectPath o tr h
      (Or.inl (by simp [hc]))
  rw [ho] at hc
  simp only [Option.some.injEq] at hc
  rw [← hc]
  exact confidenceOf_bounds _ _ _

theorem C1_confidence_in_unit_interval_witness :
    0 ≤ confidenceOf 10 20 20 ∧ confidenceOf 10 20 20 ≤ 1 :=
  C1_confidence_in_unit_interval (sampleCV 20 20 sampleKnn) (zeroMat 4 4) 400 (3 / 4)
    "object.png" _ _ (confidenceOf 10 20 20) sample_success rfl

/-- C2: an object that reaches the success branch with `g` good matches, `ko`
object keypoints and `ks` scene keypoints (`g` below `2^31` and `ko + ks` below
`2^64`, as the sizes of the vectors are) is stored with confidence
`min(1, 2 * g / (ko + ks))` and with `matchesCount = g`. -/
theorem C2_confidence_formula (cv : OpenCV) (imgScene : Mat) (minHessian ratioThreshold : ℚ)
    (objectPath : String) (kpO kpS : List KeyPoint) (dO dS : Mat) (knn : List (List DMatch))
    (good : List DMatch) (obj scene : List Point2f) (H : Mat) (sceneCorners : List Point2f)
    (cornersArray : List (Option Point2f))
    (hload : (cv.imread objectPath).empty = false)
    (hO : cv.detectAndCompute minHessian (cv.imread objectPath) = .ok (kpO, dO))
    (hS : cv.detectAndCompute minHessian imgScene = .ok (kpS, dS))
    (hkO : kpO ≠ []) (hkS : kpS ≠ [])
    (hknn : cv.knnMatch dO dS 2 = .ok knn)
    (hgood : ratioFilter ratioThreshold knn [] = some good)
    (hten : 10 ≤ good.length)
    (hloc : localize kpO kpS good [] [] = some (obj, scene))
    (hH : cv.findHomography obj scene = .ok H)
    (hP : cv.perspectiveTransform
        [⟨0, 0⟩, ⟨((cv.imread objectPath).cols : ℚ), 0⟩,
          ⟨((cv.imread objectPath).cols : ℚ), ((cv.imread objectPath).rows : ℚ)⟩,
          ⟨0, ((cv.imread objectPath).rows : ℚ)⟩] H = .ok sceneCorners)
    (hC : cornersLoop sceneCorners [0, 1, 2, 3] (List.replicate 4 none) = some cornersArray)
    (hg : good.length < 2 ^ 31) (hsize : kpO.length + kpS.length < 2 ^ 64) :
    featuresBody cv imgScene minHessian ratioThreshold objectPath
      = some ({ template := some (cv.filename objectPath)
                corners := some cornersArray
                confidence :=
                  some (min 1 (2 * (good.length : ℚ) / ((kpO.length : ℚ) + (kpS.length : ℚ))))
                matchesCount := some (good.length : Int)
                error := none }, fullTrace) := by
  have hpos : 0 < kpO.length + kpS.length := by
    have := List.length_pos.mpr hkO
    omega
  rw [featuresBody_success cv imgScene minHessian ratioThreshold objectPath kpO kpS dO dS knn good
    obj scene H sceneCorners cornersArray hload hO hS hkO hkS hknn hgood hten hloc hH hP hC,
    confidenceOf_eq _ _ _ hpos hsize, toInt32_of_lt _ hg]

theorem C2_confidence_formula_witness :
    featuresBody (sampleCV 20 20 sampleKnn) (zeroMat 4 4) 400 (3 / 4) "object.png"
      = some ({ template := some "object.png"
                corners := some (sampleCorners.map some)
                confidence := some (1 / 2)
                matchesCount := some 10
                error := none }, fullTrace) := by
  have h := C2_confidence_formula (sampleCV 20 20 sampleKnn) (zeroMat 4 4) 400 (3 / 4)
    "object.png"
    (List.replicate 20 ⟨⟨0, 0⟩⟩) (List.replicate 20 ⟨⟨0, 0⟩⟩) (zeroMat 2 2) (zeroMat 4 4)
    sampleKnn sampleGood (List.replicate 10 ⟨0, 0⟩) (List.replicate 10 ⟨0, 0⟩) (zeroMat 3 3)
    sampleCorners (sampleCorners.map some)
    (by simp [sampleCV, zeroMat, Mat.empty])
    (by simp [sampleCV, zeroMat])
    (by simp [sampleCV, zeroMat])
    (by simp [List.replicate])
    (by simp [List.replicate])
    (by simp [sampleCV])
    sample_ratioFilter
    (by simp [sampleGood])
    (sample_localize 19 19)
    (by simp [sampleCV])
    (by simp [sampleCV, zeroMat, sampleCorners])
    sample_cornersLoop
    (by simp [sampleGood])
    (by simp)
  rw [h]
  norm_num [sampleGood, sampleCV]

/-- C3: for an object whose image loads and whose two detections return, (1)
when either image has no keypoint the outcome is `matchesCount = 0` alone and the
matcher is not called; (2) when the good-match list has fewer than 10 entries the
outcome is `matchesCount` alone, equal to the number of good matches, and neither
the homography estimation nor the corner projection is called; (3) an outcome
with corners comes from a good-match list of 10 or more entries. -/
theorem C3_few_matches_outcome (cv : OpenCV) (imgScene : Mat) (minHessian ratioThreshold : ℚ)
    (objectPath : String) (kpO kpS : List KeyPoint) (dO dS : Mat)
    (hload : (cv.imread objectPath).empty = false)
    (hO : cv.detectAndCompute minHessian (cv.imread objectPath) = .ok (kpO, dO))
    (hS : cv.detectAndCompute minHessian imgScene = .ok (kpS, dS)) :
    ((kpO = [] ∨ kpS = []) →
      featuresBody cv imgScene minHessian ratioThreshold objectPath
        = some ({ template := none, corners := none, confidence := none,
                  matchesCount := some 0, error := none },
            [.imread, .detectAndCompute, .detectAndCompute]))
    ∧ (∀ (knn : List (List DMatch)) (good : List DMatch), kpO ≠ [] → kpS ≠ [] →
        cv.knnMatch dO dS 2 = .ok knn → ratioFilter ratioThreshold knn [] = some good →
        good.length < 10 →
        featuresBody cv imgScene minHessian ratioThreshold objectPath
          = some ({ template := none, corners := none, confidence := none,
                    matchesCount := some (good.length : Int), error := none },
              [.imread, .detectAndCompute, .detectAndCompute, .knnMatch])
        ∧ (good.length : Int) < 10)
    ∧ (∀ (o : ObjectResult) (tr : List Call),
        featuresBody cv imgScene minHessian ratioThreshold objectPath = some (o, tr) →
        o.corners.isSome = true →
        ∃ knn good, cv.knnMatch dO dS 2 = .ok knn ∧ ratioFilter ratioThreshold knn [] = some good
          ∧ 10 ≤ good.length) := by
  refine ⟨?_, ?_, ?_⟩
  · intro hk
    have hk2 : (kpO.isEmpty || kpS.isEmpty) = true := by
      rcases hk with h | h <;> simp [h]
    simp [featuresBody, hload, hO, hS, hk2, ObjectResult.new]
  · intro knn good hkO hkS hknn hgood hlen
    refine ⟨?_, by exact_mod_cast hlen⟩
    have h31 : good.length < 2 ^ 31 := by omega
    simp [featuresBody, hload, hO, hS, hkO, hkS, hknn, hgood, hlen, ObjectResult.new,
      toInt32_of_lt _ h31]
  · intro o tr h hc
    obtain ⟨kpO2, dO2, kpS2, dS2, knn, good, cornersArray, hO2, hS2, -, -, hknn, hgood, hten, -⟩ :=
      featuresBody_success_inv cv imgScene minHessian ratioThreshold objectPath o tr h (Or.inr hc)
    rw [hO] at hO2
    rw [hS] at hS2
    simp only [Except.ok.injEq, Prod.mk.injEq] at hO2 hS2
    obtain ⟨-, rfl⟩ := hO2
    obtain ⟨-, rfl⟩ := hS2
    exact ⟨knn, good, hknn, hgood, hten⟩

theorem sample_three_good :
    ratioFilter (3 / 4) [sampleRow, [⟨1, 0, 3⟩, ⟨1, 1, 4⟩], sampleRow, sampleRow] []
      = some [⟨0, 0, 1⟩, ⟨0, 0, 1⟩, ⟨0, 0, 1⟩] := by
  norm_num [ratioFilter, sampleRow]

theorem C3_few_matches_outcome_witness :
    featuresBody (sampleCV 0 5 []) (zeroMat 4 4) 400 (3 / 4) "object.png"
        = some ({ template := none, corners := none, confidence := none,
                  matchesCount := some 0, error := none },
            [.imread, .detectAndCompute, .detectAndCompute])
    ∧ featuresBody (sampleCV 3 5 [sampleRow, [⟨1, 0, 3⟩, ⟨1, 1, 4⟩], sampleRow, sampleRow])
          (zeroMat 4 4) 400 (3 / 4) "object.png"
        = some ({ template := none, corners := none, confidence := none,
                  matchesCount := some 3, error := none },
            [.imread, .detectAndCompute, .detectAndCompute, .knnMatch])
    ∧ ∃ knn good, (sampleCV 20 20 sampleKnn).knnMatch (zeroMat 2 2) (zeroMat 4 4) 2 = .ok knn
        ∧ ratioFilter (3 / 4) knn [] = some good ∧ 10 ≤ good.length := by
  refine ⟨?_, ?_, ?_⟩
  · exact (C3_few_matches_outcome (sampleCV 0 5 []) (zeroMat 4 4) 400 (3 / 4) "object.png"
      [] (List.replicate 5 ⟨⟨0, 0⟩⟩) (zeroMat 2 2) (zeroMat 4 4)
      (by simp [sampleCV, zeroMat, Mat.empty]) (by simp [sampleCV, zeroMat])
      (by simp [sampleCV, zeroMat])).1 (Or.inl rfl)
  · have h := ((C3_few_matches_outcome
      (sampleCV 3 5 [sampleRow, [⟨1, 0, 3⟩, ⟨1, 1, 4⟩], sampleRow, sampleRow]) (zeroMat 4 4) 400
      (3 / 4) "object.png"
      (List.replicate 3 ⟨⟨0, 0⟩⟩) (List.replicate 5 ⟨⟨0, 0⟩⟩) (zeroMat 2 2) (zeroMat 4 4)
      (by simp [sampleCV, zeroMat, Mat.empty]) (by simp [sampleCV, zeroMat])
      (by simp [sampleCV, zeroMat])).2.1 _ _ (by simp [List.replicate]) (by simp [List.replicate])
      (by simp [sampleCV]) sample_three_good (by simp)).1
    simpa using h
  · exact (C3_few_matches_outcome (sampleCV 20 20 sampleKnn) (zeroMat 4 4) 400 (3 / 4)
      "object.png"
      (List.replicate 20 ⟨⟨0, 0⟩⟩) (List.replicate 20 ⟨⟨0, 0⟩⟩) (zeroMat 2 2) (zeroMat 4 4)
      (by simp [sampleCV, zeroMat, Mat.empty]) (by simp [sampleCV, zeroMat])
      (by simp [sampleCV, zeroMat])).2.2 _ _ sample_success (by simp)

/-! ## The per-object loop of `FindFeatures` -/

theorem jsSet_length {α : Type} (arr : List (Option α)) (v : α) :
    jsSet arr arr.length v = arr ++ [some v] := by
  simp [jsSet]

theorem jsSet_map_some {α : Type} (acc : List α) (v : α) :
    jsSet (acc.map some) acc.length v = (acc ++ [v]).map some := by
  have h := jsSet_length (acc.map some) v
  simp only [List.length_map] at h
  simp [h]

theorem scanRow_eq (cv : OpenCV) (m obj : Mat) (method : Int) (thr : ℚ) (i : Nat)
    (js : List Nat) (acc : List MatchBox) (n : Nat) (hn : n = acc.length) :
    scanRow cv m obj method thr i js (acc.map some, n)
      = ((acc ++ rowBoxes cv m obj method thr i js).map some,
          (acc ++ rowBoxes cv m obj method thr i js).length) := by
  induction js generalizing acc n with
  | nil => simp [scanRow, rowBoxes, hn]
  | cons j rest ih =>
    subst hn
    by_cases h : isMatch cv method thr (m.elem i j) = true
    · simp only [scanRow, h, if_true, jsSet_map_some]
      rw [ih _ _ (by simp)]
      simp [rowBoxes, h]
    · simp only [scanRow, h]
      rw [if_neg (by simp), ih _ _ rfl]
      simp [rowBoxes, h]

theorem scanRows_eq (cv : OpenCV) (m obj : Mat) (method : Int) (thr : ℚ)
    (is : List Nat) (acc : List MatchBox) :
    scanRows cv m obj method thr is (acc.map some, acc.length)
      = ((acc ++ is.flatMap fun i => rowBoxes cv m obj method thr i (List.range m.cols)).map some,
          (acc ++ is.flatMap fun i =>
            rowBoxes cv m obj method thr i (List.range m.cols)).length) := by
  induction is generalizing acc with
  | nil => simp [scanRows]
  | cons i rest ih =>
    simp only [scanRows, scanRow_eq cv m obj method thr i _ acc acc.length rfl, ih,
      List.flatMap_cons, List.append_assoc]

theorem isMatch_eq_passes (cv : OpenCV) (method : Int) (thr score : ℚ) :
    isMatch cv method thr score = decide (passes cv method thr score) := by
  unfold isMatch passes
  split <;> simp

theorem specMatches_eq (cv : OpenCV) (m obj : Mat) (method : Int) (thr : ℚ) (is js : List Nat) :
    (((is.flatMap fun i => js.map fun j => (i, j)).filter fun p =>
        decide (passes cv method thr (m.elem p.1 p.2))).map fun p =>
      ({ x := p.2, y := p.1, width := obj.cols, height := obj.rows,
         confidence := m.elem p.1 p.2 } : MatchBox))
      = is.flatMap fun i => rowBoxes cv m obj method thr i js := by
  induction is with
  | nil => simp
  | cons i rest ih =>
    simp only [List.flatMap_cons, List.filter_append, List.map_append, ih]
    congr 1
    simp [rowBoxes, List.filter_map, Function.comp_def, isMatch_eq_passes]

theorem scan_eq_spec (cv : OpenCV) (m obj : Mat) (method : Int) (thr : ℚ) :
    (scanRows cv m obj method thr (List.range m.rows) ([], 0)).1
      = (specMatches cv m obj.cols obj.rows method thr).map some := by
  have h := scanRows_eq cv m obj method thr (List.range m.rows) []
  simp only [List.map_nil, List.length_nil, List.nil_append] at h
  rw [h, specMatches, offsets, specMatches_eq]

theorem mem_offsets (rows cols i j : Nat) : (i, j) ∈ offsets rows cols ↔ i < rows ∧ j < cols := by
  simp [offsets, List.mem_flatMap, List.mem_range]

theorem templatesBody_scanned (cv : OpenCV) (imgScene : Mat) (method : Int) (threshold : ℚ)
    (objectPath : String) (m : Mat)
    (hload : (cv.imread objectPath).empty = false)
    (hcols : (cv.imread objectPath).cols ≤ imgScene.cols)
    (hrows : (cv.imread objectPath).rows ≤ imgScene.rows)
    (hmap : cv.matchTemplate imgScene (cv.imread objectPath) method = .ok m) :
    templatesBody cv imgScene method threshold objectPath
      = ({ template := some (cv.filename objectPath)
           error := none
           maxConfidence := some (minMaxLoc m).2
           matchesArray := some ((specMatches cv m (cv.imread objectPath).cols
             (cv.imread objectPath).rows method threshold).map some) },
          [.imread, .matchTemplate, .minMaxLoc]) := by
  have h1 : ¬ imgScene.cols < (cv.imread objectPath).cols := by omega
  have h2 : ¬ imgScene.rows < (cv.imread objectPath).rows := by omega
  simp [templatesBody, hload, h1, h2, hmap, scan_eq_spec, TemplateResult.new]

theorem offsets_sorted (rows cols : Nat) :
    (offsets rows cols).Pairwise fun a b => a.1 < b.1 ∨ (a.1 = b.1 ∧ a.2 < b.2) := by
  unfold offsets
  rw [List.pairwise_flatMap]
  constructor
  · intro i _
    rw [List.pairwise_map]
    exact (List.pairwise_lt_range cols).imp fun h => Or.inr ⟨rfl, h⟩
  · refine (List.pairwise_lt_range rows).imp ?_
    intro i1 i2 h a ha b hb
    simp only [List.mem_map] at ha hb
    obtain ⟨_, _, rfl⟩ := ha
    obtain ⟨_, _, rfl⟩ := hb
    exact Or.inl h

theorem specMatches_sorted (cv : OpenCV) (m : Mat) (objW objH : Nat) (method : Int) (thr : ℚ) :
    (specMatches cv m objW objH method thr).Pairwise
      fun a b => a.y < b.y ∨ (a.y = b.y ∧ a.x < b.x) := by
  unfold specMatches
  rw [List.pairwise_map]
  exact (offsets_sorted m.rows m.cols).filter _

theorem mem_specMatches (cv : OpenCV) (m : Mat) (objW objH : Nat) (method : Int) (thr : ℚ)
    (b : MatchBox) :
    b ∈ specMatches cv m objW objH method thr ↔
      ∃ i j, i < m.rows ∧ j < m.cols ∧ passes cv method thr (m.elem i j)
        ∧ b = { x := j, y := i, width := objW, height := objH, confidence := m.elem i j } := by
  simp only [specMatches, List.mem_map, List.mem_filter, decide_eq_true_eq, Prod.exists,
    mem_offsets]
  constructor
  · rintro ⟨i, j, ⟨⟨hi, hj⟩, hp⟩, rfl⟩
    exact ⟨i, j, hi, hj, hp, rfl⟩
  · rintro ⟨i, j, hi, hj, hp, rfl⟩
    exact ⟨i, j, ⟨⟨hi, hj⟩, hp⟩, rfl⟩

/-- C6: for an object that loads and fits in the scene, and any score map the
template matcher returns, the stored matches are, without holes, the boxes of
the offsets `(x = j, y = i)` of the map whose score passes the polarity test
(`score ≤ threshold` for the two squared-difference methods, `score ≥ threshold`
for every other method), each with the object width and height and the score as
confidence, and they are listed in row-major order. -/
theorem C6_template_matches (cv : OpenCV) (imgScene : Mat) (method : Int) (threshold : ℚ)
    (objectPath : String) (m : Mat)
    (hload : (cv.imread objectPath).empty = false)
    (hcols : (cv.imread objectPath).cols ≤ imgScene.cols)
    (hrows : (cv.imread objectPath).rows ≤ imgScene.rows)
    (hmap : cv.matchTemplate imgScene (cv.imread objectPath) method = .ok m) :
    ∃ boxes : List MatchBox,
      (templatesBody cv imgScene method threshold objectPath).1.matchesArray
        = some (boxes.map some)
      ∧ boxes = specMatches cv m (cv.imread objectPath).cols (cv.imread objectPath).rows method
          threshold
      ∧ (∀ b : MatchBox, b ∈ boxes ↔
          ∃ i j, i < m.rows ∧ j < m.cols
            ∧ (if method = cv.TM_SQDIFF ∨ method = cv.TM_SQDIFF_NORMED then m.elem i j ≤ threshold
                else m.elem i j ≥ threshold)
            ∧ b = { x := j, y := i, width := (cv.imread objectPath).cols,
                    height := (cv.imread objectPath).rows, confidence := m.elem i j })
      ∧ boxes.Pairwise (fun a b => a.y < b.y ∨ (a.y = b.y ∧ a.x < b.x)) := by
  refine ⟨_, ?_, rfl, ?_, specMatches_sorted _ _ _ _ _ _⟩
  · rw [templatesBody_scanned cv imgScene method threshold objectPath m hload hcols hrows hmap]
  · intro b
    exact mem_specMatches cv m _ _ method threshold b

/-- C9: an object that loads and is wider or taller than the scene is stored as
template and the size-mismatch error alone, without maxConfidence or matches,
and the template matcher is not called; an object no wider and no taller than
the scene takes the branch that calls the template matcher. -/
theorem C9_size_mismatch (cv : OpenCV) (imgScene : Mat) (method : Int) (threshold : ℚ)
    (objectPath : String) (hload : (cv.imread objectPath).empty = false) :
    ((imgScene.cols < (cv.imread objectPath).cols ∨ imgScene.rows < (cv.imread objectPath).rows) →
      templatesBody cv imgScene method threshold objectPath
        = ({ template := some (cv.filename objectPath)
             error := some "Scene image is smaller than template image"
             maxConfidence := none
             matchesArray := none }, [.imread]))
    ∧ ((cv.imread objectPath).cols ≤ imgScene.cols → (cv.imread objectPath).rows ≤ imgScene.rows →
        (templatesBody cv imgScene method threshold objectPath).2.take 2
          = [.imread, .matchTemplate]) := by
  constructor
  · intro h
    have h2 : (decide (imgScene.cols < (cv.imread objectPath).cols)
        || decide (imgScene.rows < (cv.imread objectPath).rows)) = true := by
      rcases h with h | h <;> simp [h]
    simp only [templatesBody, hload, h2]
    simp [TemplateResult.new]
  · intro hc hr
    have h1 : ¬ imgScene.cols < (cv.imread objectPath).cols := by omega
    have h2 : ¬ imgScene.rows < (cv.imread objectPath).rows := by omega
    simp only [templatesBody, hload, h1, h2]
    cases cv.matchTemplate imgScene (cv.imread objectPath) method <;> simp

theorem C9_size_mismatch_witness :
    templatesBody (sampleCV 0 0 []) (zeroMat 1 5) 0 0 "object.png"
        = ({ template := some "object.png"
             error := some "Scene image is smaller than template image"
             maxConfidence := none
             matchesArray := none }, [.imread])
    ∧ (templatesBody (sampleCV 0 0 []) (zeroMat 2 2) 0 0 "object.png").2.take 2
        = [.imread, .matchTemplate] := by
  have h := C9_size_mismatch (sampleCV 0 0 []) (zeroMat 1 5) 0 0 "object.png"
    (by simp [sampleCV, zeroMat, Mat.empty])
  have h2 := C9_size_mismatch (sampleCV 0 0 []) (zeroMat 2 2) 0 0 "object.png"
    (by simp [sampleCV, zeroMat, Mat.empty])
  refine ⟨?_, ?_⟩
  · have h3 := h.1 (Or.inr (by simp [sampleCV, zeroMat]))
    simpa [sampleCV] using h3
  · exact h2.2 (by simp [sampleCV, zeroMat]) (by simp [sampleCV, zeroMat])

theorem sample_ramp_map :
    (sqdiffMap rampScene (zeroMat 2 2)).rows = 1 ∧ (sqdiffMap rampScene (zeroMat 2 2)).cols = 2
      ∧ (sqdiffMap rampScene (zeroMat 2 2)).elem 0 0 = 2
      ∧ (sqdiffMap rampScene (zeroMat 2 2)).elem 0 1 = 10 := by
  norm_num [sqdiffMap, rampScene, zeroMat, List.range_succ]

theorem sample_ramp_spec :
    specMatches (sampleCV 0 0 []) (sqdiffMap rampScene (zeroMat 2 2)) 2 2 0 5
      = [{ x := 0, y := 0, width := 2, height := 2, confidence := 2 }] := by
  obtain ⟨hr, hc, h0, h1⟩ := sample_ramp_map
  have hp0 : passes (sampleCV 0 0 []) 0 5 2 := by norm_num [passes, sampleCV]
  have hp1 : ¬ passes (sampleCV 0 0 []) 0 5 10 := by norm_num [passes, sampleCV]
  simp [specMatches, offsets, hr, hc, h0, h1, hp0, hp1, List.range_succ]

theorem C6_template_matches_witness :
    (templatesBody (sampleCV 0 0 []) rampScene 0 5 "object.png").1.matchesArray
      = some [some { x := 0, y := 0, width := 2, height := 2, confidence := 2 }] := by
  obtain ⟨boxes, h1, h2, -, -⟩ :=
    C6_template_matches (sampleCV 0 0 []) rampScene 0 5 "object.png"
      (sqdiffMap rampScene (zeroMat 2 2))
      (by simp [sampleCV, zeroMat, Mat.empty])
      (by simp [sampleCV, zeroMat, rampScene])
      (by simp [sampleCV, zeroMat, rampScene])
      (by simp [sampleCV])
  have h3 : boxes = [{ x := 0, y := 0, width := 2, height := 2, confidence := 2 }] := by
    rw [h2]
    simpa [sampleCV, zeroMat] using sample_ramp_spec
  rw [h1, h3]
  rfl

/-! ## The reported best score -/

theorem foldl_max_bounds (vs : List ℚ) (v : ℚ) :
    v ≤ vs.foldl max v ∧ (∀ x ∈ vs, x ≤ vs.foldl max v) ∧ vs.foldl max v ∈ v :: vs := by
  induction vs generalizing v with
  | nil => simp
  | cons w rest ih =>
    obtain ⟨h1, h2, h3⟩ := ih (max v w)
    simp only [List.foldl_cons]
    refine ⟨le_trans (le_max_left v w) h1, ?_, ?_⟩
    · intro x hx
      rcases List.mem_cons.mp hx with rfl | hx
      · exact le_trans (le_max_right v x) h1
      · exact h2 x hx
    · rcases List.mem_cons.mp h3 with h | h
      · rcases max_choice v w with hv | hw
        · rw [h, hv]; simp
        · rw [h, hw]; simp
      · exact List.mem_cons_of_mem _ (List.mem_cons_of_mem _ h)

theorem mem_entries (m : Mat) (x : ℚ) :
    x ∈ m.entries ↔ ∃ i j, i < m.rows ∧ j < m.cols ∧ m.elem i j = x := by
  simp only [Mat.entries, List.mem_flatMap, List.mem_map, List.mem_range]
  constructor
  · rintro ⟨i, hi, j, hj, rfl⟩
    exact ⟨i, j, hi, hj, rfl⟩
  · rintro ⟨i, j, hi, hj, rfl⟩
    exact ⟨i, hi, j, hj, rfl⟩

theorem minMaxLoc_max (m : Mat) :
    (∀ i j, i < m.rows → j < m.cols → m.elem i j ≤ (minMaxLoc m).2)
    ∧ (0 < m.rows → 0 < m.cols →
        ∃ i j, i < m.rows ∧ j < m.cols ∧ m.elem i j = (minMaxLoc m).2) := by
  unfold minMaxLoc
  cases h : m.entries with
  | nil =>
    constructor
    · intro i j hi hj
      have : m.elem i j ∈ m.entries := (mem_entries m _).mpr ⟨i, j, hi, hj, rfl⟩
      rw [h] at this
      simp at this
    · intro hr hc
      have : m.elem 0 0 ∈ m.entries := (mem_entries m _).mpr ⟨0, 0, hr, hc, rfl⟩
      rw [h] at this
      simp at this
  | cons v vs =>
    obtain ⟨h1, h2, h3⟩ := foldl_max_bounds vs v
    constructor
    · intro i j hi hj
      have hmem : m.elem i j ∈ m.entries := (mem_entries m _).mpr ⟨i, j, hi, hj, rfl⟩
      rw [h] at hmem
      rcases List.mem_cons.mp hmem with hx | hx
      · simpa [hx] using h1
      · exact h2 _ hx
    · intro _ _
      have hmem : vs.foldl max v ∈ m.entries := by rw [h]; exact h3
      exact (mem_entries m _).mp hmem

/-- C7 as the code has it: for every method and every threshold, the stored
maxConfidence is the highest score of the map, and it does not depend on the
threshold. -/
theorem C7_max_confidence_is_highest_score (cv : OpenCV) (imgScene : Mat) (method : Int)
    (threshold : ℚ) (objectPath : String) (m : Mat)
    (hload : (cv.imread objectPath).empty = false)
    (hcols : (cv.imread objectPath).cols ≤ imgScene.cols)
    (hrows : (cv.imread objectPath).rows ≤ imgScene.rows)
    (hmap : cv.matchTemplate imgScene (cv.imread objectPath) method = .ok m) :
    ∃ best : ℚ,
      (templatesBody cv imgScene method threshold objectPath).1.maxConfidence = some best
      ∧ (∀ i j, i < m.rows → j < m.cols → m.elem i j ≤ best)
      ∧ (0 < m.rows → 0 < m.cols → ∃ i j, i < m.rows ∧ j < m.cols ∧ m.elem i j = best)
      ∧ ∀ threshold2 : ℚ,
          (templatesBody cv imgScene method threshold2 objectPath).1.maxConfidence = some best := by
  refine ⟨(minMaxLoc m).2, ?_, (minMaxLoc_max m).1, (minMaxLoc_max m).2, ?_⟩
  · rw [templatesBody_scanned cv imgScene method threshold objectPath m hload hcols hrows hmap]
  · intro threshold2
    rw [templatesBody_scanned cv imgScene method threshold2 objectPath m hload hcols hrows hmap]

theorem sample_ramp_body (threshold : ℚ) :
    (templatesBody (sampleCV 0 0 []) rampScene 0 threshold "object.png").1.maxConfidence
      = some 10 := by
  obtain ⟨hr, hc, h0, h1⟩ := sample_ramp_map
  rw [templatesBody_scanned (sampleCV 0 0 []) rampScene 0 threshold "object.png"
    (sqdiffMap rampScene (zeroMat 2 2))
    (by simp [sampleCV, zeroMat, Mat.empty])
    (by simp [sampleCV, zeroMat, rampScene])
    (by simp [sampleCV, zeroMat, rampScene])
    (by simp [sampleCV])]
  simp only [minMaxLoc, Mat.entries, hr, hc]
  norm_num [List.range_succ, h0, h1]

theorem C7_max_confidence_is_highest_score_witness :
    ∃ best : ℚ,
      (templatesBody (sampleCV 0 0 []) rampScene 0 5 "object.png").1.maxConfidence = some best
      ∧ (sqdiffMap rampScene (zeroMat 2 2)).elem 0 0 ≤ best
      ∧ (sqdiffMap rampScene (zeroMat 2 2)).elem 0 1 ≤ best := by
  obtain ⟨hr, hc, -, -⟩ := sample_ramp_map
  obtain ⟨best, h1, h2, -, -⟩ :=
    C7_max_confidence_is_highest_score (sampleCV 0 0 []) rampScene 0 5 "object.png"
      (sqdiffMap rampScene (zeroMat 2 2))
      (by simp [sampleCV, zeroMat, Mat.empty])
      (by simp [sampleCV, zeroMat, rampScene])
      (by simp [sampleCV, zeroMat, rampScene])
      (by simp [sampleCV])
  exact ⟨best, h1, h2 0 0 (by omega) (by omega), h2 0 1 (by omega) (by omega)⟩

/-- C7 counterexample: with the squared-difference method (`TM_SQDIFF = 0`) on a
map with the two scores 2 and 10, the lowest score is 2 and the stored
maxConfidence is 10. -/
theorem C7_counterexample :
    (sampleCV 0 0 []).TM_SQDIFF = 0
    ∧ (sampleCV 0 0 []).matchTemplate rampScene ((sampleCV 0 0 []).imread "object.png") 0
        = .ok (sqdiffMap rampScene (zeroMat 2 2))
    ∧ (sqdiffMap rampScene (zeroMat 2 2)).rows = 1
    ∧ (sqdiffMap rampScene (zeroMat 2 2)).cols = 2
    ∧ (sqdiffMap rampScene (zeroMat 2 2)).elem 0 0 = 2
    ∧ (sqdiffMap rampScene (zeroMat 2 2)).elem 0 1 = 10
    ∧ (minMaxLoc (sqdiffMap rampScene (zeroMat 2 2))).1 = 2
    ∧ (templatesBody (sampleCV 0 0 []) rampScene 0 5 "object.png").1.maxConfidence = some 10
    ∧ (templatesBody (sampleCV 0 0 []) rampScene 0 5 "object.png").1.maxConfidence
        ≠ some (minMaxLoc (sqdiffMap rampScene (zeroMat 2 2))).1 := by
  obtain ⟨hr, hc, h0, h1⟩ := sample_ramp_map
  have hmin : (minMaxLoc (sqdiffMap rampScene (zeroMat 2 2))).1 = 2 := by
    simp only [minMaxLoc, Mat.entries, hr, hc]
    norm_num [List.range_succ, h0, h1]
  refine ⟨rfl, by simp [sampleCV], hr, hc, h0, h1, hmin, sample_ramp_body 5, ?_⟩
  rw [sample_ramp_body 5, hmin]
  norm_num

/-! ## Sum of squared differences -/

theorem sqdiff_identical (scene obj : Mat) (i j : Nat)
    (hsame : ∀ y x, y < obj.rows → x < obj.cols → scene.elem (i + y) (j + x) = obj.elem y x) :
    (sqdiffMap scene obj).elem i j = 0 := by
  simp only [sqdiffMap]
  apply List.sum_eq_zero
  intro s hs
  simp only [List.mem_map, List.mem_range] at hs
  obtain ⟨y, hy, rfl⟩ := hs
  apply List.sum_eq_zero
  intro v hv
  simp only [List.mem_map, List.mem_range] at hv
  obtain ⟨x, hx, rfl⟩ := hv
  rw [hsame y x hy hx]
  simp

theorem offsets_length (rows cols : Nat) : (offsets rows cols).length = rows * cols := by
  induction rows with
  | zero => simp [offsets]
  | succ n ih =>
    unfold offsets at ih ⊢
    rw [List.range_succ, List.flatMap_append, List.length_append, ih]
    simp [Nat.succ_mul]

theorem specMatches_all_zero (cv : OpenCV) (m : Mat) (objW objH : Nat)
    (hz : ∀ i j, m.elem i j = 0) :
    specMatches cv m objW objH cv.TM_SQDIFF 0
      = (offsets m.rows m.cols).map fun p =>
          { x := p.2, y := p.1, width := objW, height := objH, confidence := 0 } := by
  unfold specMatches
  rw [List.filter_eq_self.mpr]
  · simp [hz]
  · intro p _
    simp [passes, hz]

theorem minMaxLoc_all_zero (m : Mat) (hz : ∀ i j, m.elem i j = 0) (hr : 0 < m.rows)
    (hc : 0 < m.cols) : (minMaxLoc m).2 = 0 := by
  obtain ⟨i, j, -, -, h⟩ := (minMaxLoc_max m).2 hr hc
  rw [← h, hz]

/-- C8: with the raw sum of squared differences as the score map, (1) at every
offset where the scene window equals the object pixel for pixel the score is 0
and, for a threshold of 0 or more, the box of that offset with confidence 0 is
among the stored matches; (2) a 100 x 100 scene and a 10 x 10 object, both of
zero pixels, with threshold 0 give the 91 * 91 = 8281 offsets in row-major
order, each with confidence 0, and maxConfidence 0. -/
theorem C8_sqdiff_identical_window :
    (∀ (cv : OpenCV) (imgScene : Mat) (threshold : ℚ) (objectPath : String) (i j : Nat),
      (cv.imread objectPath).empty = false →
      (cv.imread objectPath).cols ≤ imgScene.cols →
      (cv.imread objectPath).rows ≤ imgScene.rows →
      cv.matchTemplate imgScene (cv.imread objectPath) cv.TM_SQDIFF
        = .ok (sqdiffMap imgScene (cv.imread objectPath)) →
      i ≤ imgScene.rows - (cv.imread objectPath).rows →
      j ≤ imgScene.cols - (cv.imread objectPath).cols →
      (∀ y x, y < (cv.imread objectPath).rows → x < (cv.imread objectPath).cols →
        imgScene.elem (i + y) (j + x) = (cv.imread objectPath).elem y x) →
      0 ≤ threshold →
      (sqdiffMap imgScene (cv.imread objectPath)).elem i j = 0
      ∧ ∃ boxes : List MatchBox,
          (templatesBody cv imgScene cv.TM_SQDIFF threshold objectPath).1.matchesArray
            = some (boxes.map some)
          ∧ { x := j, y := i, width := (cv.imread objectPath).cols,
              height := (cv.imread objectPath).rows, confidence := 0 } ∈ boxes)
    ∧ ((templatesBody zeroCV (zeroMat 100 100) 0 0 "object.png").1.matchesArray
          = some ((offsets 91 91).map fun p =>
              some { x := p.2, y := p.1, width := 10, height := 10, confidence := 0 })
        ∧ ((offsets 91 91).map fun p =>
              some ({ x := p.2, y := p.1, width := 10, height := 10, confidence := 0 }
                : MatchBox)).length = 8281
        ∧ (templatesBody zeroCV (zeroMat 100 100) 0 0 "object.png").1.maxConfidence = some 0) := by
  constructor
  · intro cv imgScene threshold objectPath i j hload hcols hrows hmap hi hj hsame hthr
    have hzero := sqdiff_identical imgScene (cv.imread objectPath) i j hsame
    refine ⟨hzero, specMatches cv (sqdiffMap imgScene (cv.imread objectPath))
      (cv.imread objectPath).cols (cv.imread objectPath).rows cv.TM_SQDIFF threshold, ?_, ?_⟩
    · rw [templatesBody_scanned cv imgScene cv.TM_SQDIFF threshold objectPath _ hload hcols hrows
        hmap]
    · rw [mem_specMatches]
      refine ⟨i, j, ?_, ?_, ?_, ?_⟩
      · simp only [sqdiffMap]; omega
      · simp only [sqdiffMap]; omega
      · rw [hzero]
        simp [passes, hthr]
      · rw [hzero]
  · have hz : ∀ i j, (sqdiffMap (zeroMat 100 100) (zeroMat 10 10)).elem i j = 0 := by
      intro i j
      exact sqdiff_identical _ _ i j (by intros; rfl)
    have hbody := templatesBody_scanned zeroCV (zeroMat 100 100) 0 0 "object.png"
      (sqdiffMap (zeroMat 100 100) (zeroMat 10 10))
      (by simp [zeroCV, zeroMat, Mat.empty])
      (by simp [zeroCV, zeroMat])
      (by simp [zeroCV, zeroMat])
      (by simp [zeroCV, sampleCV])
    have hspec := specMatches_all_zero zeroCV (sqdiffMap (zeroMat 100 100) (zeroMat 10 10)) 10 10 hz
    have hrows : (sqdiffMap (zeroMat 100 100) (zeroMat 10 10)).rows = 91 := by
      simp [sqdiffMap, zeroMat]
    have hcols : (sqdiffMap (zeroMat 100 100) (zeroMat 10 10)).cols = 91 := by
      simp [sqdiffMap, zeroMat]
    have hmax := minMaxLoc_all_zero (sqdiffMap (zeroMat 100 100) (zeroMat 10 10)) hz
      (by rw [hrows]; norm_num) (by rw [hcols]; norm_num)
    rw [hrows, hcols] at hspec
    have hsq : zeroCV.TM_SQDIFF = 0 := rfl
    rw [hsq] at hspec
    have himg : zeroCV.imread "object.png" = zeroMat 10 10 := rfl
    rw [himg] at hbody
    have hdim : (zeroMat 10 10).cols = 10 ∧ (zeroMat 10 10).rows = 10 := ⟨rfl, rfl⟩
    rw [hdim.1, hdim.2, hspec, hmax] at hbody
    refine ⟨?_, ?_, ?_⟩
    · rw [hbody]
      simp
    · rw [List.length_map, offsets_length]
    · rw [hbody]

theorem C8_sqdiff_identical_window_witness :
    (sqdiffMap patchScene (patchCV.imread "object.png")).elem 0 1 = 0
    ∧ ∃ boxes : List MatchBox,
        (templatesBody patchCV patchScene 0 0 "object.png").1.matchesArray = some (boxes.map some)
        ∧ { x := 1, y := 0, width := 1, height := 1, confidence := 0 } ∈ boxes :=
  C8_sqdiff_identical_window.1 patchCV patchScene 0 "object.png" 0 1
    (by simp [patchCV, Mat.empty])
    (by simp [patchCV, patchScene])
    (by simp [patchCV, patchScene])
    (by simp [patchCV, sampleCV])
    (by simp)
    (by simp [patchCV, patchScene])
    (by
      intro y x _ hx
      have hx0 : x = 0 := by
        simp only [patchCV] at hx
        omega
      subst hx0
      simp [patchCV, patchScene])
    (le_refl 0)

end Addon
